import Mathlib

/-!
Shallow embedding of the stream / upload / account-cache / search core of
src/gui/qt5/qt5_gui.py (Tsubame Qt 5 GUI module), together with proofs of
the behavioural properties of its operations.

Python dicts are modelled as association lists with the operations below;
Python object mutation is modelled by explicit state passing, and every
place where the Python code can raise is modelled with Option / Except or
an explicit result constructor.
-/

namespace Tsubame

/-- Lookup in an association list modelling a Python dict
(dict.get returns None when the key is absent). -/
def lookupA {α : Type} (m : List (String × α)) (k : String) : Option α :=
  (m.find? (fun p => p.1 = k)).map Prod.snd

/-- Assignment dict[k] = v: the new binding shadows any previous one. -/
def insertA {α : Type} (m : List (String × α)) (k : String) (v : α) :
    List (String × α) :=
  (k, v) :: m.filter (fun p => ¬ p.1 = k)

/-- Deletion del dict[k]. -/
def eraseA {α : Type} (m : List (String × α)) (k : String) :
    List (String × α) :=
  m.filter (fun p => ¬ p.1 = k)

/-- Membership test k in dict. -/
def containsA {α : Type} (m : List (String × α)) (k : String) : Bool :=
  (lookupA m k).isSome

/-! ### Streams: temporary stream id allocation (qt5_gui.py lines 505-527)

The Streams class keeps a counter self._temporary_stream_id initialised
to -1 and a dict self._temporary_streams of temporary streams; the lock
around the counter serialises the calls, so the sequential model below is
the linearised behaviour. -/

/-- A Twitter status message (twitter.Status), reduced to the fields the
GUI layer reads. -/
structure TwitterStatus where
  id_str : String
  text : String
  deriving Repr, DecidableEq

/-- A message held in a stream: either a twitter.Status or some other,
unsupported object (which the GUI code skips with an error log). -/
inductive StreamMsg where
  | status (s : TwitterStatus)
  | other (description : String)
  deriving Repr, DecidableEq

/-- A message stream (core.stream.MessageStream), reduced to the fields
the GUI layer reads and writes: its name, the active message id string
and the list of fetched messages. -/
structure MessageStream where
  name : String
  active_message_id : Option String
  messages : List StreamMsg
  deriving Repr, DecidableEq

/-- The mutable state of the Streams class that the claims touch:
the temporary stream id counter (initialised to -1) and the dict of
temporary streams. -/
structure StreamsState where
  temporary_stream_id : Int
  temporary_streams : List (String × MessageStream)
  deriving Repr

/-- Streams.__init__: the counter starts at -1 and no temporary stream
is registered. -/
def streamsInit : StreamsState :=
  { temporary_stream_id := -1, temporary_streams := [] }

/-- Streams.get_temporary_stream_id: under the lock, increment the counter
and return its string form. -/
def get_temporary_stream_id (st : StreamsState) : String × StreamsState :=
  let n := st.temporary_stream_id + 1
  (toString n, { st with temporary_stream_id := n })

/-- The sequence of ids produced by n successive calls of
get_temporary_stream_id, together with the final state. -/
def issue_ids : Nat → StreamsState → List String × StreamsState
  | 0, st => ([], st)
  | n + 1, st =>
    let r := get_temporary_stream_id st
    let rest := issue_ids n r.2
    (r.1 :: rest.1, rest.2)

/-! ### Streams: message listing, refresh and active message
(qt5_gui.py lines 542-570, 719-739, 750-764) -/

/-- Modelled from the spec: constants.MessageType.TWEET.value comes from
core.constants which is not under src; the spec names tweet as the one
recognized message kind, so the enumeration value is the string tweet. -/
def MessageTypeTweet : String := "tweet"

/-- Modelled from the spec: process_twitter_message lives in gui.qt5.lib
which is not under src.  It converts a twitter.Status into a payload dict
for QML and reports whether the message matches the active message id;
per the spec the match is computed by scanning for equality of the stored
message id, so the payload is kept as the status itself and the match flag
compares the id with the active id. -/
def process_twitter_message (s : TwitterStatus)
    (active_message_id : Option String := none) : TwitterStatus × Bool :=
  (s, active_message_id = some s.id_str)

/-- The message-conversion loop of Streams.get_stream_messages: statuses
are converted and appended, a match sets match_index to the position of
the just-appended message, and non-Status messages are skipped. -/
def build_message_list (msgs : List StreamMsg)
    (active_message_id : Option String) :
    List TwitterStatus × Option Nat :=
  msgs.foldl
    (fun acc m =>
      match m with
      | .status s =>
        let pr := process_twitter_message s active_message_id
        let lst := acc.1 ++ [pr.1]
        (lst, if pr.2 then some (lst.length - 1) else acc.2)
      | .other _ => acc)
    ([], none)

/-- The extraction of the active message id in
Streams.get_stream_messages: the stored string is split on the first
underscore; only the tweet kind yields an id to match against.  An empty
stored string is falsy in Python, so it yields no active id. -/
def extract_active_message_id (stored : Option String) : Option String :=
  match stored with
  | none => none
  | some amid =>
    if amid = "" then none
    else
      let parts := amid.splitOn "_"
      if parts.getD 0 "" = MessageTypeTweet then some (parts.getD 1 "")
      else none

/-- Streams.get_stream_messages: look the stream up in the temporary dict
or in the stream manager dict; an absent name is logged and yields
([], none); a present stream yields the converted message list and the
match index of the active message.  The function reads but never writes
either registry. -/
def get_stream_messages (st : StreamsState)
    (stream_dict : List (String × MessageStream))
    (stream_name : String) (temporary : Bool) :
    List TwitterStatus × Option Nat :=
  let stream :=
    if temporary then lookupA st.temporary_streams stream_name
    else lookupA stream_dict stream_name
  match stream with
  | some s =>
    build_message_list s.messages (extract_active_message_id s.active_message_id)
  | none => ([], none)

/-- The collaborator of Streams.refresh_stream: stream.refresh from
core.stream, which returns the newly fetched messages and mutates the
stream object in place. -/
structure StreamRefreshEnv where
  refresh : MessageStream → List StreamMsg × MessageStream

/-- Streams.refresh_stream: an absent name is logged and yields the empty
list with both registries untouched; a present stream is refreshed, its
mutated object stays registered under its name, and only the new messages
that are twitter.Status objects are converted and returned. -/
def refresh_stream (env : StreamRefreshEnv) (st : StreamsState)
    (stream_dict : List (String × MessageStream))
    (stream_name : String) (temporary : Bool) :
    List TwitterStatus × StreamsState × List (String × MessageStream) :=
  let stream :=
    if temporary then lookupA st.temporary_streams stream_name
    else lookupA stream_dict stream_name
  match stream with
  | some s =>
    let r := env.refresh s
    let message_list :=
      r.1.foldl
        (fun acc m =>
          match m with
          | .status s => acc ++ [(process_twitter_message s).1]
          | .other _ => acc)
        []
    if temporary then
      (message_list,
       { st with
           temporary_streams := insertA st.temporary_streams stream_name r.2 },
       stream_dict)
    else
      (message_list, st, insertA stream_dict stream_name r.2)
  | none => ([], st, stream_dict)

/-- The outcome of Streams.set_stream_active_message: ok when the active
message was stored and the stream saved, streamNotFound when the stream
name is absent (logged, returns []), unsupportedKind when the message
type is not the recognized tweet kind (logged error). -/
inductive SetActiveMessageResult where
  | ok
  | streamNotFound
  | unsupportedKind
  deriving Repr, DecidableEq

/-- The message_data dict passed to set_stream_active_message, reduced to
the two keys the function reads. -/
structure MessageData where
  tsubame_message_type : Option String
  id_str : String
  deriving Repr, DecidableEq

/-- Streams.set_stream_active_message: only the tweet message kind is
accepted; for it the stream (when present) gets active_message_id set to
type_id and is saved with commit=True (modelled by consing the saved
stream onto the persisted list).  Any other message type is logged as an
unknown message kind and nothing is touched. -/
def set_stream_active_message (stream_dict : List (String × MessageStream))
    (saved : List MessageStream) (stream_name : String) (md : MessageData) :
    SetActiveMessageResult × List (String × MessageStream) × List MessageStream :=
  if md.tsubame_message_type = some MessageTypeTweet then
    match lookupA stream_dict stream_name with
    | some s =>
      let s2 := { s with
        active_message_id := some (MessageTypeTweet ++ "_" ++ md.id_str) }
      (.ok, insertA stream_dict stream_name s2, s2 :: saved)
    | none => (.streamNotFound, stream_dict, saved)
  else
    (.unsupportedKind, stream_dict, saved)

/-! ### Upload: the media upload worker (qt5_gui.py lines 371-488)

Upload._handle_uploads dequeues (index, task) pairs from a FIFO queue.
A None task is the shutdown sentinel: the loop breaks without sending any
event.  Otherwise the worker sends an UPLOADING status, runs the task, and
sends SUCCESS with the media id or ERROR with the message; a bare except
around the task body turns any raised exception into an ERROR event with
an empty message and the loop continues. -/

/-- An upload task as seen by the worker: run_result none models task.run
raising an exception, some (success, message) models its return value;
media_id is read only on success. -/
structure UploadTask where
  media_filename : String
  run_result : Option (Bool × String)
  media_id : Nat
  deriving Repr, DecidableEq

/-- A mediaUploadStatus event sent to the QML side. -/
inductive MediaUploadEvent where
  | uploading (index : Nat)
  | success (index : Nat) (media_id : String)
  | error (index : Nat) (message : String)
  deriving Repr, DecidableEq

/-- The events emitted for a single dequeued non-sentinel task
(the body of the while loop in Upload._handle_uploads). -/
def handle_task (index : Nat) (task : UploadTask) : List MediaUploadEvent :=
  match task.run_result with
  | some (true, _message) =>
    [.uploading index, .success index (toString task.media_id)]
  | some (false, message) =>
    [.uploading index, .error index message]
  | none =>
    [.uploading index, .error index ""]

/-- Upload._handle_uploads run over the contents of the task queue:
a None task breaks the loop, any other task is handled by handle_task
and the loop continues. -/
def handle_uploads : List (Nat × Option UploadTask) → List MediaUploadEvent
  | [] => []
  | (_, none) :: _ => []
  | (index, some task) :: rest => handle_task index task ++ handle_uploads rest

/-- An event is a terminal status for job index i. -/
def terminal_for (i : Nat) (e : MediaUploadEvent) : Prop :=
  (∃ s, e = .success i s) ∨ (∃ m, e = .error i m)

/-! ### Upload.upload_media_basic (qt5_gui.py lines 449-488)

The whole body is wrapped in try/except that returns (index, "").  Inside:
a leading file:// scheme is stripped with str.split, a missing file yields
(index, ""), get_twitter_api may raise TwitterAPIUsernameNotFound, and
UploadMediaChunked may raise; a successful upload yields the media id
formatted as a decimal string. -/

/-- The collaborators of upload_media_basic: whether a path exists on the
file system, whether a Twitter API instance exists for an account username
(get_twitter_api raises when it does not), and the result of
api.UploadMediaChunked (none models a raised exception). -/
structure UploadEnv where
  file_exists : String → Bool
  api_exists : String → Bool
  upload_chunked : String → String → Option Nat

/-- The worker of pySplit: scan the character list left to right, cutting
at each non-overlapping occurrence of the pattern, with enough fuel to
cover the whole input (structural recursion so that proofs can evaluate
it). -/
def split_from (pat : List Char) : Nat → List Char → List Char →
    List (List Char)
  | 0, l, acc => [acc.reverse ++ l]
  | _ + 1, [], acc => [acc.reverse]
  | fuel + 1, c :: rest, acc =>
    if pat.isPrefixOf (c :: rest) then
      acc.reverse :: split_from pat fuel ((c :: rest).drop pat.length) []
    else
      split_from pat fuel rest (c :: acc)

/-- Python str.split(sep) for a non-empty separator: the pieces of s
between the non-overlapping occurrences of sep, scanned left to right. -/
def pySplit (s sep : String) : List String :=
  (split_from sep.data (s.data.length + 1) s.data []).map String.mk

/-- Python s.startswith(pre). -/
def pyStartsWith (s pre : String) : Bool :=
  pre.data.isPrefixOf s.data

/-- media_file_path.split("file://")[1] applied when the path starts with
file://, as in the source; otherwise the path is unchanged. -/
def drop_file_scheme (path : String) : String :=
  if pyStartsWith path "file://" then (pySplit path "file://").getD 1 ""
  else path

/-- Upload.upload_media_basic as a total function: every exception raised
inside the body is caught by the bare except and turned into (index, ""). -/
def upload_media_basic (env : UploadEnv) (account_username : String)
    (media_file_path : String) (media_category : String) (index : Nat) :
    Nat × String :=
  let path := drop_file_scheme media_file_path
  if env.file_exists path = false then (index, "")
  else if env.api_exists account_username = false then (index, "")
  else
    match env.upload_chunked path media_category with
    | some media_id => (index, toString media_id)
    | none => (index, "")

/-! ### Accounts: the account user-info cache (qt5_gui.py lines 862-1024)

The Accounts class keeps an in-memory dict self._account_caches of
AccountInfoCache objects keyed by account username, backed by a blitzdb
database (modelled as a second association list, the durable storage).
The AccountInfoCache class itself lives in core/cache.py which is not
under src; its pieces are modelled from the spec where noted. -/

/-- A Twitter list object, reduced to the fields the account code reads. -/
structure TwitterListObj where
  name : String
  slug : String
  mode : String
  deriving Repr, DecidableEq

/-- An account user info cache record.  Modelled from the spec:
core/cache.py (AccountInfoCache) is not under src; per the spec the cache
holds a profile snapshot, private and public list partitions, and a
validity flag that is false until the first successful fetch.  The
user_info payload (a dict in Python) is kept as an opaque string. -/
structure AccountInfoCache where
  account_username : String
  user_info : Option String
  private_lists : List TwitterListObj
  public_lists : List TwitterListObj
  deriving Repr, DecidableEq

/-- Modelled from the spec: valid is false until the first successful
fetch or after explicit invalidation (clear); a cache is valid exactly
when it holds fetched profile data. -/
def AccountInfoCache.valid (c : AccountInfoCache) : Bool :=
  c.user_info.isSome

/-- Modelled from the spec: cache.clear dumps any stale content, leaving
an invalid cache. -/
def AccountInfoCache.clear (c : AccountInfoCache) : AccountInfoCache :=
  { c with user_info := none, private_lists := [], public_lists := [] }

/-- Modelled from the spec: cache.add_lists appends the given lists to
the private and public partitions. -/
def AccountInfoCache.add_lists (c : AccountInfoCache)
    (private_lists public_lists : List TwitterListObj) : AccountInfoCache :=
  { c with
      private_lists := c.private_lists ++ private_lists,
      public_lists := c.public_lists ++ public_lists }

/-- Modelled from the spec: AccountInfoCache.new constructs a fresh
invalid cache for the account username. -/
def AccountInfoCache.fresh (account_username : String) : AccountInfoCache :=
  { account_username := account_username
    user_info := none
    private_lists := []
    public_lists := [] }

/-- The Twitter API collaborators of the Accounts class: whether an API
instance exists for an account username (get_twitter_api raises
TwitterAPIUsernameNotFound when it does not), the result of
get_user_info(...).AsDict() (none models a raised exception, the payload
is kept opaque), and the result of list_module.get_lists (none models a
raised exception, which the fetcher catches). -/
structure TwitterEnv where
  api_exists : String → Bool
  user_info : String → Option String
  get_lists : String → Option (List TwitterListObj)

/-- An exception escaping an Accounts method. -/
inductive ApiError where
  | usernameNotFound
  | fetchFailed
  deriving Repr, DecidableEq

/-- The partition loop of Accounts._fetch_lists_owned_by_account: lists
with mode private and public are appended to their partitions in order,
any other mode is logged and the list is dropped. -/
def filter_lists : List TwitterListObj →
    List TwitterListObj × List TwitterListObj
  | [] => ([], [])
  | l :: rest =>
    let r := filter_lists rest
    if l.mode = "private" then (l :: r.1, r.2)
    else if l.mode = "public" then (r.1, l :: r.2)
    else r

/-- Accounts._fetch_lists_owned_by_account: get_twitter_api may raise
(propagated), get_lists failures are caught and treated as an empty list,
and the fetched lists are partitioned by mode. -/
def fetch_lists_owned_by_account (env : TwitterEnv)
    (account_username : String) :
    Except ApiError (List TwitterListObj × List TwitterListObj) :=
  if env.api_exists account_username = false then
    Except.error .usernameNotFound
  else
    Except.ok (filter_lists ((env.get_lists account_username).getD []))

/-- An association list of caches keyed by account username: used both
for the in-memory dict self._account_caches and for the durable cache
database. -/
abbrev CacheMap := List (String × AccountInfoCache)

/-- Accounts._get_account_cache: return the in-memory cache when present;
otherwise load it from the cache database, and when the database reports
DoesNotExist construct a fresh invalid cache (Modelled from the spec:
AccountInfoCache.new also persists the fresh cache to the database).  In
every case the returned cache ends up registered in the in-memory dict. -/
def get_account_cache (caches storage : CacheMap) (account_username : String) :
    AccountInfoCache × CacheMap × CacheMap :=
  match lookupA caches account_username with
  | some cache => (cache, caches, storage)
  | none =>
    match lookupA storage account_username with
    | some cache => (cache, insertA caches account_username cache, storage)
    | none =>
      let cache := AccountInfoCache.fresh account_username
      (cache, insertA caches account_username cache,
       insertA storage account_username cache)

/-- Accounts._get_cache_for_account: a valid cache is returned as is;
an invalid cache is cleared, profile info and owned lists are re-fetched,
the cache is refilled and saved with commit=True (persisted to the cache
database).  The Python code mutates one shared cache object, so every
mutation is mirrored into the in-memory dict; an exception from
get_twitter_api or get_user_info propagates, leaving the cleared
(invalid) cache in the in-memory dict. -/
def get_cache_for_account (env : TwitterEnv) (caches storage : CacheMap)
    (account_username : String) :
    Except ApiError AccountInfoCache × CacheMap × CacheMap :=
  let r := get_account_cache caches storage account_username
  let cache := r.1
  if cache.valid then (Except.ok cache, r.2.1, r.2.2)
  else
    let cache1 := cache.clear
    let caches2 := insertA r.2.1 account_username cache1
    if env.api_exists account_username = false then
      (Except.error .usernameNotFound, caches2, r.2.2)
    else
      match env.user_info account_username with
      | none => (Except.error .fetchFailed, caches2, r.2.2)
      | some ui =>
        match fetch_lists_owned_by_account env account_username with
        | Except.error e => (Except.error e, caches2, r.2.2)
        | Except.ok pl =>
          let cache2 := { cache1 with user_info := some ui }
          let cache3 := cache2.add_lists pl.1 pl.2
          let cache4 := { cache3 with user_info := some ui }
          (Except.ok cache4, insertA caches2 account_username cache4,
           insertA r.2.2 account_username cache4)

/-! ### Search._searchCB (qt5_gui.py lines 1292-1306)

The callback converts the results, unconditionally sends them to QML
under the search result id, and then removes the current thread name from
the in-progress dict when it is still there. -/

/-- An opaque search result payload. -/
abbrev SearchPoint := String

/-- Modelled: point2dict is referenced in Search._searchCB but defined
outside src; the conversion is kept as the identity on the opaque
payload. -/
def point2dict (p : SearchPoint) : SearchPoint := p

/-- Modelled: the SEARCH_RESULT_ constant used to build the result event
id is referenced in Search._searchCB but defined outside src. -/
def search_result_id_start : String := "searchResult_"

/-- A result event sent to the QML side by Search._searchCB. -/
structure SearchSend where
  resultId : String
  results : List SearchPoint
  deriving Repr, DecidableEq

/-- Search._searchCB: build the result list, send it (always), then
delete the current thread name from _threadsInProgress when present.
Returns the emitted events and the updated dict. -/
def searchCB (searchId : String) (results : List SearchPoint)
    (threadName : String) (threadsInProgress : List (String × String)) :
    List SearchSend × List (String × String) :=
  let resultList := results.map point2dict
  let sends := [⟨search_result_id_start ++ searchId, resultList⟩]
  if containsA threadsInProgress threadName then
    (sends, eraseA threadsInProgress threadName)
  else
    (sends, threadsInProgress)

/-! ### Helper lemmas -/

theorem lookupA_insertA_self {α : Type} (m : List (String × α)) (k : String)
    (v : α) : lookupA (insertA m k v) k = some v := by
  simp [lookupA, insertA, List.find?]

theorem lookupA_eraseA_self {α : Type} (m : List (String × α)) (k : String) :
    lookupA (eraseA m k) k = none := by
  induction m with
  | nil => simp [lookupA, eraseA]
  | cons p rest ih =>
    by_cases h : p.1 = k
    · simp only [lookupA, eraseA] at ih ⊢
      simp [List.filter_cons, h, ih]
    · simp only [lookupA, eraseA] at ih ⊢
      simp [List.filter_cons, List.find?_cons, h, ih]

theorem lookupA_eraseA_ne {α : Type} (m : List (String × α)) (k k' : String)
    (h : k' ≠ k) : lookupA (eraseA m k) k' = lookupA m k' := by
  induction m with
  | nil => simp [lookupA, eraseA]
  | cons p rest ih =>
    have hk : ¬ k = k' := fun hc => h hc.symm
    by_cases hp : p.1 = k
    · have hpk : ¬ p.1 = k' := fun hc => h (hc.symm.trans hp)
      simpa [lookupA, eraseA, List.filter_cons, hp, List.find?_cons, hpk, hk, h]
        using ih
    · by_cases hpk : p.1 = k'
      · simp [lookupA, eraseA, List.filter_cons, hp, List.find?_cons, hpk, hk, h]
      · simpa [lookupA, eraseA, List.filter_cons, hp, List.find?_cons, hpk, hk, h]
          using ih

theorem containsA_false_lookupA {α : Type} (m : List (String × α))
    (k : String) (h : containsA m k = false) : lookupA m k = none := by
  simpa [containsA, Option.isSome_iff_exists] using h

theorem issue_ids_general (n : Nat) :
    ∀ (c : Int) (ts : List (String × MessageStream)),
      issue_ids n ⟨c, ts⟩ =
        ((List.range n).map (fun k : Nat => toString (c + 1 + (k : Int))),
         ⟨c + n, ts⟩) := by
  induction n with
  | zero => intro c ts; simp [issue_ids]
  | succ n ih =>
    intro c ts
    have h1 : issue_ids (n + 1) ⟨c, ts⟩ =
        ((toString (c + 1)) :: (issue_ids n ⟨c + 1, ts⟩).1,
         (issue_ids n ⟨c + 1, ts⟩).2) := rfl
    rw [h1, ih (c + 1) ts]
    simp only [List.range_succ_eq_map, List.map_cons, List.map_map]
    refine congrArg₂ Prod.mk (congrArg₂ List.cons ?_ ?_) ?_
    · exact congrArg toString (by norm_num)
    · apply List.map_congr_left
      intro k _
      exact congrArg toString (by push_cast [Function.comp]; ring)
    · exact congrArg (fun z => StreamsState.mk z ts) (by push_cast; ring)

theorem handle_uploads_append_sentinel
    (tasks : List (Nat × UploadTask)) (j : Nat)
    (rest : List (Nat × Option UploadTask)) :
    handle_uploads
        (tasks.map (fun p => (p.1, some p.2)) ++ (j, none) :: rest) =
      (tasks.map (fun p => handle_task p.1 p.2)).flatten := by
  induction tasks with
  | nil => simp [handle_uploads]
  | cons p ps ih => simp [handle_uploads, ih]

theorem handle_task_last_terminal (i : Nat) (t : UploadTask) :
    ∃ e, (handle_task i t).getLast? = some e ∧ terminal_for i e := by
  match h : t.run_result with
  | some (true, m) =>
    exact ⟨.success i (toString t.media_id), by simp [handle_task, h],
      Or.inl ⟨toString t.media_id, rfl⟩⟩
  | some (false, m) =>
    exact ⟨.error i m, by simp [handle_task, h], Or.inr ⟨m, rfl⟩⟩
  | none =>
    exact ⟨.error i "", by simp [handle_task, h], Or.inr ⟨"", rfl⟩⟩

theorem handle_uploads_map_some (tasks : List (Nat × UploadTask)) :
    handle_uploads (tasks.map (fun p => (p.1, some p.2))) =
      (tasks.map (fun p => handle_task p.1 p.2)).flatten := by
  induction tasks with
  | nil => simp [handle_uploads]
  | cons p ps ih => simp [handle_uploads, ih]

theorem filter_lists_eq_filter (ls : List TwitterListObj) :
    filter_lists ls =
      (ls.filter (fun l => l.mode = "private"),
       ls.filter (fun l => l.mode = "public")) := by
  induction ls with
  | nil => simp [filter_lists]
  | cons l rest ih =>
    by_cases h1 : l.mode = "private"
    · have h2 : ¬ l.mode = "public" := by simp [h1]
      simp [filter_lists, ih, h1, h2, List.filter_cons]
    · by_cases h2 : l.mode = "public"
      · simp [filter_lists, ih, h1, h2, List.filter_cons]
      · simp [filter_lists, ih, h1, h2, List.filter_cons]

/-! ### The claims -/

/-- Claim C1: every call of Streams.get_temporary_stream_id returns an id
strictly greater than all previously issued ids, the first call returns
id 0, and N calls starting from the initial Streams state yield exactly
the ids 0, 1, ..., N-1 in order, with no repeats or gaps: the issued list
is literally the decimal forms of 0..N-1 and the counter ends at N-1. -/
theorem claim_C1_temporary_stream_ids (N : Nat) :
    issue_ids N streamsInit =
      ((List.range N).map (fun k : Nat => toString ((k : Int))),
       ⟨(N : Int) - 1, []⟩) := by
  have h := issue_ids_general N (-1) []
  have hinit : streamsInit = ⟨-1, []⟩ := rfl
  rw [hinit, h]
  refine congrArg₂ Prod.mk ?_ ?_
  · apply List.map_congr_left
    intro k _
    exact congrArg toString (by omega)
  · exact congrArg (fun z => StreamsState.mk z []) (by omega)

/-- Claim C2: the upload worker loop, upon dequeuing the None sentinel,
exits without emitting any status event for it (events from anything
behind the sentinel are never emitted), and every non-sentinel task
dequeued before the sentinel contributes its full event block, ending in
a terminal success or error status, before the next task is dequeued. -/
theorem claim_C2_upload_worker_sentinel (tasks : List (Nat × UploadTask))
    (j : Nat) (rest : List (Nat × Option UploadTask)) :
    handle_uploads
        (tasks.map (fun p => (p.1, some p.2)) ++ (j, none) :: rest) =
      (tasks.map (fun p => handle_task p.1 p.2)).flatten ∧
    ∀ p ∈ tasks, ∃ e, (handle_task p.1 p.2).getLast? = some e ∧
      terminal_for p.1 e :=
  ⟨handle_uploads_append_sentinel tasks j rest,
   fun p _ => handle_task_last_terminal p.1 p.2⟩

/-- Witness for claim C2: one successful task followed by the sentinel
and a task behind it; only the first task emits events and its last event
is terminal. -/
theorem claim_C2_upload_worker_sentinel_witness :
    handle_uploads
        ([((0 : Nat), (⟨"f.png", some (true, ""), 42⟩ : UploadTask))].map
          (fun p => (p.1, some p.2)) ++
         (1, none) :: [(2, some (⟨"g.png", some (true, ""), 7⟩ : UploadTask))]) =
      ([((0 : Nat), (⟨"f.png", some (true, ""), 42⟩ : UploadTask))].map
        (fun p => handle_task p.1 p.2)).flatten ∧
    (∃ e, (handle_task 0 (⟨"f.png", some (true, ""), 42⟩ : UploadTask)).getLast?
        = some e ∧ terminal_for 0 e) ∧
    handle_uploads
        ([((0 : Nat), (⟨"f.png", some (true, ""), 42⟩ : UploadTask))].map
          (fun p => (p.1, some p.2)) ++
         (1, none) :: [(2, some (⟨"g.png", some (true, ""), 7⟩ : UploadTask))]) =
      [.uploading 0, .success 0 "42"] := by
  have h := claim_C2_upload_worker_sentinel
    [((0 : Nat), (⟨"f.png", some (true, ""), 42⟩ : UploadTask))] 1
    [(2, some (⟨"g.png", some (true, ""), 7⟩ : UploadTask))]
  exact ⟨h.1, h.2 _ (List.mem_singleton.mpr rfl), by rfl⟩

/-- Claim C7: the worker loop reaches every task in the queue even when
earlier tasks raise, and every task whose run raises an exception is
reported as an error status with an empty message instead of crashing
the loop. -/
theorem claim_C7_worker_survives_failures (tasks : List (Nat × UploadTask)) :
    handle_uploads (tasks.map (fun p => (p.1, some p.2))) =
      (tasks.map (fun p => handle_task p.1 p.2)).flatten ∧
    ∀ p ∈ tasks, p.2.run_result = none →
      handle_task p.1 p.2 = [.uploading p.1, .error p.1 ""] := by
  refine ⟨handle_uploads_map_some tasks, ?_⟩
  intro p _ hfail
  simp [handle_task, hfail]

/-- Witness for claim C7: two tasks that both raise are both reported as
errors and the loop reaches both. -/
theorem claim_C7_worker_survives_failures_witness :
    handle_uploads
        ([((0 : Nat), (⟨"a.png", none, 0⟩ : UploadTask)),
          ((1 : Nat), (⟨"b.png", none, 0⟩ : UploadTask))].map
          (fun p => (p.1, some p.2))) =
      ([((0 : Nat), (⟨"a.png", none, 0⟩ : UploadTask)),
        ((1 : Nat), (⟨"b.png", none, 0⟩ : UploadTask))].map
        (fun p => handle_task p.1 p.2)).flatten ∧
    handle_task 1 (⟨"b.png", none, 0⟩ : UploadTask) =
      [.uploading 1, .error 1 ""] := by
  have h := claim_C7_worker_survives_failures
    [((0 : Nat), (⟨"a.png", none, 0⟩ : UploadTask)),
     ((1 : Nat), (⟨"b.png", none, 0⟩ : UploadTask))]
  exact ⟨h.1,
    h.2 ((1 : Nat), (⟨"b.png", none, 0⟩ : UploadTask)) (by simp) rfl⟩

/-- Claim C8: fetching the lists owned by an account partitions the
fetched lists exactly by their mode field: mode private goes to the
private partition, mode public to the public partition, and a list with
any other mode appears in neither. -/
theorem claim_C8_fetch_lists_partition (env : TwitterEnv) (u : String)
    (ls : List TwitterListObj) (hapi : env.api_exists u = true)
    (hls : env.get_lists u = some ls) :
    fetch_lists_owned_by_account env u =
      Except.ok (ls.filter (fun l => l.mode = "private"),
                 ls.filter (fun l => l.mode = "public")) ∧
    ∀ l ∈ ls, l.mode ≠ "private" → l.mode ≠ "public" →
      l ∉ ls.filter (fun l => l.mode = "private") ∧
      l ∉ ls.filter (fun l => l.mode = "public") := by
  constructor
  · simp [fetch_lists_owned_by_account, hapi, hls, filter_lists_eq_filter]
  · intro l _ h1 h2
    constructor
    · intro hmem
      exact h1 (by simpa using (List.mem_filter.mp hmem).2)
    · intro hmem
      exact h2 (by simpa using (List.mem_filter.mp hmem).2)

/-- Witness for claim C8: a concrete fetch with one list of each mode and
one list of an unknown mode; the unknown one is dropped from both
partitions. -/
theorem claim_C8_fetch_lists_partition_witness :
    fetch_lists_owned_by_account
        ⟨fun _ => true, fun _ => none,
         fun _ => some [⟨"a", "a", "private"⟩, ⟨"b", "b", "weird"⟩,
                        ⟨"c", "c", "public"⟩]⟩ "alice" =
      Except.ok
        ([⟨"a", "a", "private"⟩, ⟨"b", "b", "weird"⟩,
          ⟨"c", "c", "public"⟩].filter (fun l => l.mode = "private"),
         [⟨"a", "a", "private"⟩, ⟨"b", "b", "weird"⟩,
          ⟨"c", "c", "public"⟩].filter (fun l => l.mode = "public")) ∧
    (⟨"b", "b", "weird"⟩ : TwitterListObj) ∉
        [(⟨"a", "a", "private"⟩ : TwitterListObj), ⟨"b", "b", "weird"⟩,
         ⟨"c", "c", "public"⟩].filter (fun l => l.mode = "private") ∧
    (⟨"b", "b", "weird"⟩ : TwitterListObj) ∉
        [(⟨"a", "a", "private"⟩ : TwitterListObj), ⟨"b", "b", "weird"⟩,
         ⟨"c", "c", "public"⟩].filter (fun l => l.mode = "public") := by
  have h := claim_C8_fetch_lists_partition
    ⟨fun _ => true, fun _ => none,
     fun _ => some [⟨"a", "a", "private"⟩, ⟨"b", "b", "weird"⟩,
                    ⟨"c", "c", "public"⟩]⟩ "alice"
    [⟨"a", "a", "private"⟩, ⟨"b", "b", "weird"⟩, ⟨"c", "c", "public"⟩]
    rfl rfl
  exact ⟨h.1, h.2 _ (by simp) (by decide) (by decide)⟩

/-- Claim C10: upload_media_basic is total (every exception inside is
caught): the returned pair always carries the given job index; a missing
media file, a missing API instance or a failed chunked upload yield the
empty media id string, and a successful upload yields the decimal string
form of the uploaded media id. -/
theorem claim_C10_upload_media_basic (env : UploadEnv)
    (account_username media_file_path media_category : String) (index : Nat) :
    (upload_media_basic env account_username media_file_path media_category
        index).1 = index ∧
    (env.file_exists (drop_file_scheme media_file_path) = false →
      upload_media_basic env account_username media_file_path media_category
        index = (index, "")) ∧
    (env.api_exists account_username = false →
      upload_media_basic env account_username media_file_path media_category
        index = (index, "")) ∧
    (env.file_exists (drop_file_scheme media_file_path) = true →
      env.api_exists account_username = true →
      ∀ media_id,
        env.upload_chunked (drop_file_scheme media_file_path) media_category
          = some media_id →
        upload_media_basic env account_username media_file_path media_category
          index = (index, toString media_id)) ∧
    (env.file_exists (drop_file_scheme media_file_path) = true →
      env.api_exists account_username = true →
      env.upload_chunked (drop_file_scheme media_file_path) media_category
        = none →
      upload_media_basic env account_username media_file_path media_category
        index = (index, "")) := by
  refine ⟨?_, ?_, ?_, ?_, ?_⟩
  · by_cases h1 : env.file_exists (drop_file_scheme media_file_path)
    · by_cases h2 : env.api_exists account_username
      · cases h3 : env.upload_chunked (drop_file_scheme media_file_path)
            media_category with
        | none => simp [upload_media_basic, h1, h2, h3]
        | some mid => simp [upload_media_basic, h1, h2, h3]
      · simp [upload_media_basic, h1, eq_false_of_ne_true h2]
    · simp [upload_media_basic, eq_false_of_ne_true h1]
  · intro h1
    simp [upload_media_basic, h1]
  · intro h2
    by_cases h1 : env.file_exists (drop_file_scheme media_file_path)
    · simp [upload_media_basic, h1, h2]
    · simp [upload_media_basic, eq_false_of_ne_true h1]
  · intro h1 h2 media_id h3
    simp [upload_media_basic, h1, h2, h3]
  · intro h1 h2 h3
    simp [upload_media_basic, h1, h2, h3]

/-- Witness for claim C10: a concrete environment where the file behind a
file:// path exists and the upload succeeds with media id 42, and a
second path that does not exist. -/
theorem claim_C10_upload_media_basic_witness :
    upload_media_basic
        ⟨fun p => p = "/a/b.png", fun _ => true, fun _ _ => some 42⟩
        "alice" "file:///a/b.png" "tweet_image" 3 = (3, "42") ∧
    upload_media_basic
        ⟨fun p => p = "/a/b.png", fun _ => true, fun _ _ => some 42⟩
        "alice" "/missing.png" "tweet_image" 5 = (5, "") := by
  have h1 := claim_C10_upload_media_basic
    ⟨fun p => p = "/a/b.png", fun _ => true, fun _ _ => some 42⟩
    "alice" "file:///a/b.png" "tweet_image" 3
  have h2 := claim_C10_upload_media_basic
    ⟨fun p => p = "/a/b.png", fun _ => true, fun _ _ => some 42⟩
    "alice" "/missing.png" "tweet_image" 5
  exact ⟨h1.2.2.2.1 (by decide) rfl 42 rfl, h2.2.1 (by decide)⟩

/-- Claim C3: set_stream_active_message with a message whose type is not
the recognized tweet kind reports the unsupported message kind and leaves
the stream registry and the persisted streams unchanged (so every
previously set active message id is unchanged); with the tweet kind and
an existing stream it stores the (type, id) pair in active_message_id
and persists the stream. -/
theorem claim_C3_set_stream_active_message
    (stream_dict : List (String × MessageStream)) (saved : List MessageStream)
    (stream_name : String) (md : MessageData) :
    (md.tsubame_message_type ≠ some MessageTypeTweet →
      set_stream_active_message stream_dict saved stream_name md =
        (.unsupportedKind, stream_dict, saved)) ∧
    (md.tsubame_message_type = some MessageTypeTweet →
      ∀ s, lookupA stream_dict stream_name = some s →
        ∃ s2,
          set_stream_active_message stream_dict saved stream_name md =
            (.ok, insertA stream_dict stream_name s2, s2 :: saved) ∧
          s2.active_message_id =
            some (MessageTypeTweet ++ "_" ++ md.id_str) ∧
          s2.name = s.name ∧ s2.messages = s.messages) := by
  constructor
  · intro h
    simp [set_stream_active_message, h]
  · intro h s hs
    refine ⟨{ s with active_message_id := some (MessageTypeTweet ++ "_" ++ md.id_str) }, ?_, rfl, rfl, rfl⟩
    simp [set_stream_active_message, h, hs]

/-- Witness for claim C3: a registry with one stream whose active message
is tweet_1; an unknown message kind changes nothing, while the tweet kind
stores tweet_99 and persists the stream. -/
theorem claim_C3_set_stream_active_message_witness :
    set_stream_active_message [("s", ⟨"s", some "tweet_1", []⟩)] [] "s"
        ⟨some "bogus-kind", "x"⟩ =
      (.unsupportedKind, [("s", ⟨"s", some "tweet_1", []⟩)], []) ∧
    (∃ s2,
      set_stream_active_message [("s", ⟨"s", some "tweet_1", []⟩)] [] "s"
          ⟨some "tweet", "99"⟩ =
        (.ok, insertA [("s", ⟨"s", some "tweet_1", []⟩)] "s" s2,
         s2 :: []) ∧
      s2.active_message_id = some (MessageTypeTweet ++ "_" ++ "99") ∧
      s2.name = "s" ∧ s2.messages = ([] : List StreamMsg)) := by
  have h1 := claim_C3_set_stream_active_message
    [("s", ⟨"s", some "tweet_1", []⟩)] [] "s" ⟨some "bogus-kind", "x"⟩
  have h2 := claim_C3_set_stream_active_message
    [("s", ⟨"s", some "tweet_1", []⟩)] [] "s" ⟨some "tweet", "99"⟩
  exact ⟨h1.1 (by decide), h2.2 rfl ⟨"s", some "tweet_1", []⟩ rfl⟩

/-- Claim C9: for a stream name absent from the relevant registry,
get_stream_messages returns the empty message list with no match index
and refresh_stream returns the empty list of new messages with both
registries unchanged; neither raises. -/
theorem claim_C9_missing_stream (env : StreamRefreshEnv) (st : StreamsState)
    (stream_dict : List (String × MessageStream)) (stream_name : String)
    (temporary : Bool)
    (h : (if temporary then lookupA st.temporary_streams stream_name
          else lookupA stream_dict stream_name) = none) :
    get_stream_messages st stream_dict stream_name temporary = ([], none) ∧
    refresh_stream env st stream_dict stream_name temporary =
      ([], st, stream_dict) := by
  constructor
  · simp only [get_stream_messages, h]
  · simp only [refresh_stream, h]

/-- Witness for claim C9: looking up and refreshing the stream name ghost
in empty registries yields empty results and no state change. -/
theorem claim_C9_missing_stream_witness :
    get_stream_messages streamsInit [] "ghost" false = ([], none) ∧
    refresh_stream ⟨fun s => ([], s)⟩ streamsInit [] "ghost" false =
      ([], streamsInit, []) :=
  claim_C9_missing_stream ⟨fun s => ([], s)⟩ streamsInit [] "ghost" false rfl

/-- Claim C5 is false on the code: Search._searchCB sends the result to
the UI layer before it consults the thread-tracking dict, so running the
callback twice for the same handle delivers the result twice, not exactly
once; here a concrete double invocation emits two result events. -/
theorem claim_C5_counterexample :
    (searchCB "address" ["p1"] "t1" [("t1", "address")]).1.length +
      (searchCB "address" ["p1"] "t1"
        (searchCB "address" ["p1"] "t1" [("t1", "address")]).2).1.length = 2 ∧
    ¬ ((searchCB "address" ["p1"] "t1" [("t1", "address")]).1.length +
      (searchCB "address" ["p1"] "t1"
        (searchCB "address" ["p1"] "t1" [("t1", "address")]).2).1.length
        = 1) := by
  constructor
  · rfl
  · decide

/-- Claim C5 (amended): when a tracked async task result arrives,
Search._searchCB forwards the result to the UI layer unconditionally
(exactly one result event per call, even when the handle mapping is
already gone, so a second callback for the same handle delivers a second
event) and then removes the handle mapping, a removal that is a no-op
when the mapping is already gone; mappings of other handles are
untouched. -/
theorem claim_C5_search_cb_delivery (searchId : String)
    (results : List SearchPoint) (threadName : String)
    (m : List (String × String)) :
    (searchCB searchId results threadName m).1 =
      [⟨search_result_id_start ++ searchId, results.map point2dict⟩] ∧
    lookupA (searchCB searchId results threadName m).2 threadName = none ∧
    ∀ k, k ≠ threadName →
      lookupA (searchCB searchId results threadName m).2 k = lookupA m k := by
  by_cases h : containsA m threadName
  · refine ⟨by simp [searchCB, h], ?_, ?_⟩
    · simp [searchCB, h, lookupA_eraseA_self]
    · intro k hk
      simp [searchCB, h, lookupA_eraseA_ne m threadName k hk]
  · refine ⟨by simp [searchCB, h], ?_, ?_⟩
    · simp [searchCB, h,
        containsA_false_lookupA m threadName (eq_false_of_ne_true h)]
    · intro k hk
      simp [searchCB, h]

/-- Witness for claim C5 (amended): with handle t1 tracked, the callback
emits one result event, removes t1 and leaves the mapping of t2 alone. -/
theorem claim_C5_search_cb_delivery_witness :
    (searchCB "address" ["p1"] "t1" [("t1", "address"), ("t2", "wiki")]).1 =
      [⟨search_result_id_start ++ "address", ["p1"].map point2dict⟩] ∧
    lookupA (searchCB "address" ["p1"] "t1"
        [("t1", "address"), ("t2", "wiki")]).2 "t1" = none ∧
    lookupA (searchCB "address" ["p1"] "t1"
        [("t1", "address"), ("t2", "wiki")]).2 "t2" =
      lookupA [("t1", "address"), ("t2", "wiki")] "t2" := by
  have h := claim_C5_search_cb_delivery "address" ["p1"] "t1"
    [("t1", "address"), ("t2", "wiki")]
  exact ⟨h.1, h.2.1, h.2.2 "t2" (by decide)⟩

/-- Claim C6: looking up an account cache returns the in-memory cache
when present; otherwise it loads the cache from durable storage, and when
storage reports not-found it constructs and persists a fresh invalid
cache instead of raising; in every case the returned cache ends up
registered in the in-memory map under the account username. -/
theorem claim_C6_get_account_cache (caches storage : CacheMap) (u : String) :
    (∀ c, lookupA caches u = some c →
      get_account_cache caches storage u = (c, caches, storage)) ∧
    (lookupA caches u = none →
      (∀ c, lookupA storage u = some c →
        get_account_cache caches storage u =
          (c, insertA caches u c, storage)) ∧
      (lookupA storage u = none →
        get_account_cache caches storage u =
          (AccountInfoCache.fresh u,
           insertA caches u (AccountInfoCache.fresh u),
           insertA storage u (AccountInfoCache.fresh u)) ∧
        (AccountInfoCache.fresh u).valid = false ∧
        lookupA (insertA storage u (AccountInfoCache.fresh u)) u =
          some (AccountInfoCache.fresh u))) ∧
    lookupA (get_account_cache caches storage u).2.1 u =
      some (get_account_cache caches storage u).1 := by
  refine ⟨?_, ?_, ?_⟩
  · intro c hc
    simp [get_account_cache, hc]
  · intro hnone
    refine ⟨fun c hc => by simp [get_account_cache, hnone, hc], fun hs => ?_⟩
    exact ⟨by simp [get_account_cache, hnone, hs], rfl,
      lookupA_insertA_self storage u (AccountInfoCache.fresh u)⟩
  · cases hc : lookupA caches u with
    | some c => simp [get_account_cache, hc]
    | none =>
      cases hs : lookupA storage u with
      | some c => simp [get_account_cache, hc, hs, lookupA_insertA_self]
      | none => simp [get_account_cache, hc, hs, lookupA_insertA_self]

/-- Witness for claim C6: an in-memory hit, a storage hit and a full miss,
each at a concrete username. -/
theorem claim_C6_get_account_cache_witness :
    get_account_cache [("a", AccountInfoCache.fresh "a")] [] "a" =
      (AccountInfoCache.fresh "a", [("a", AccountInfoCache.fresh "a")], []) ∧
    get_account_cache [] [("b", ⟨"b", some "ui", [], []⟩)] "b" =
      (⟨"b", some "ui", [], []⟩,
       insertA [] "b" ⟨"b", some "ui", [], []⟩,
       [("b", ⟨"b", some "ui", [], []⟩)]) ∧
    get_account_cache [] [] "c" =
      (AccountInfoCache.fresh "c",
       insertA [] "c" (AccountInfoCache.fresh "c"),
       insertA [] "c" (AccountInfoCache.fresh "c")) ∧
    (AccountInfoCache.fresh "c").valid = false := by
  have h1 := claim_C6_get_account_cache [("a", AccountInfoCache.fresh "a")]
    [] "a"
  have h2 := claim_C6_get_account_cache []
    [("b", ⟨"b", some "ui", [], []⟩)] "b"
  have h3 := claim_C6_get_account_cache [] [] "c"
  exact ⟨h1.1 (AccountInfoCache.fresh "a") rfl,
    (h2.2.1 rfl).1 ⟨"b", some "ui", [], []⟩ rfl,
    ((h3.2.1 rfl).2 rfl).1, ((h3.2.1 rfl).2 rfl).2.1⟩

/-- Claim C4: refreshing the cache for an account returns a valid cache
unchanged without consulting the network; an invalid cache is cleared and
re-fetched, so after a successful fetch the cache registered in memory
and persisted to storage is valid and holds the fetched profile and
partitioned lists, while a fetch that raises leaves an invalid cache in
the in-memory map and propagates the error. -/
theorem claim_C4_get_cache_for_account (env : TwitterEnv)
    (caches storage : CacheMap) (u : String) :
    ((get_account_cache caches storage u).1.valid = true →
      get_cache_for_account env caches storage u =
        (Except.ok (get_account_cache caches storage u).1,
         (get_account_cache caches storage u).2.1,
         (get_account_cache caches storage u).2.2)) ∧
    ((get_account_cache caches storage u).1.valid = false →
      env.api_exists u = true →
      ∀ ui, env.user_info u = some ui →
        ∃ c, (get_cache_for_account env caches storage u).1 = Except.ok c ∧
          c.valid = true ∧ c.user_info = some ui ∧
          c.private_lists = (filter_lists ((env.get_lists u).getD [])).1 ∧
          c.public_lists = (filter_lists ((env.get_lists u).getD [])).2 ∧
          lookupA (get_cache_for_account env caches storage u).2.1 u
            = some c ∧
          lookupA (get_cache_for_account env caches storage u).2.2 u
            = some c) ∧
    ((get_account_cache caches storage u).1.valid = false →
      (env.api_exists u = false ∨ env.user_info u = none) →
      (∃ e, (get_cache_for_account env caches storage u).1
          = Except.error e) ∧
      ∃ c, lookupA (get_cache_for_account env caches storage u).2.1 u
          = some c ∧ c.valid = false) := by
  refine ⟨?_, ?_, ?_⟩
  · intro hvalid
    simp [get_cache_for_account, hvalid]
  · intro hvalid hapi ui hui
    simp only [get_cache_for_account, hvalid, Bool.false_eq_true, if_false,
      hapi, Bool.true_eq_false, hui, fetch_lists_owned_by_account,
      if_true]
    refine ⟨_, rfl, rfl, rfl, ?_, ?_, ?_, ?_⟩
    · simp [AccountInfoCache.add_lists, AccountInfoCache.clear]
    · simp [AccountInfoCache.add_lists, AccountInfoCache.clear]
    · exact lookupA_insertA_self _ u _
    · exact lookupA_insertA_self _ u _
  · intro hvalid herr
    cases herr with
    | inl hapi =>
      simp only [get_cache_for_account, hvalid, Bool.false_eq_true,
        if_false, hapi, if_true]
      exact ⟨⟨.usernameNotFound, rfl⟩,
        ⟨_, lookupA_insertA_self _ u _, rfl⟩⟩
    | inr hui =>
      by_cases hapi : env.api_exists u = false
      · simp only [get_cache_for_account, hvalid, Bool.false_eq_true,
          if_false, hapi, if_true]
        exact ⟨⟨.usernameNotFound, rfl⟩,
          ⟨_, lookupA_insertA_self _ u _, rfl⟩⟩
      · simp only [get_cache_for_account, hvalid, Bool.false_eq_true,
          if_false, hapi, hui]
        exact ⟨⟨.fetchFailed, rfl⟩,
          ⟨_, lookupA_insertA_self _ u _, rfl⟩⟩

/-- Witness for claim C4: a valid in-memory cache is returned untouched;
for an unknown account a successful fetch yields a valid persisted cache,
and a fetch that raises leaves the cache invalid. -/
theorem claim_C4_get_cache_for_account_witness :
    get_cache_for_account
        ⟨fun _ => false, fun _ => none, fun _ => none⟩
        [("a", ⟨"a", some "ui", [], []⟩)] [] "a" =
      (Except.ok ⟨"a", some "ui", [], []⟩,
       [("a", ⟨"a", some "ui", [], []⟩)], []) ∧
    (∃ c,
      (get_cache_for_account
          ⟨fun _ => true, fun _ => some "info",
           fun _ => some [⟨"l", "l", "private"⟩]⟩ [] [] "alice").1 =
        Except.ok c ∧
      c.valid = true ∧ c.user_info = some "info" ∧
      c.private_lists = (filter_lists [⟨"l", "l", "private"⟩]).1 ∧
      c.public_lists = (filter_lists [⟨"l", "l", "private"⟩]).2 ∧
      lookupA (get_cache_for_account
          ⟨fun _ => true, fun _ => some "info",
           fun _ => some [⟨"l", "l", "private"⟩]⟩ [] [] "alice").2.1 "alice"
        = some c ∧
      lookupA (get_cache_for_account
          ⟨fun _ => true, fun _ => some "info",
           fun _ => some [⟨"l", "l", "private"⟩]⟩ [] [] "alice").2.2 "alice"
        = some c) ∧
    ((∃ e,
      (get_cache_for_account ⟨fun _ => true, fun _ => none, fun _ => none⟩
          [] [] "bob").1 = Except.error e) ∧
     ∃ c,
      lookupA (get_cache_for_account
          ⟨fun _ => true, fun _ => none, fun _ => none⟩ [] [] "bob").2.1
          "bob" = some c ∧ c.valid = false) := by
  have h1 := claim_C4_get_cache_for_account
    ⟨fun _ => false, fun _ => none, fun _ => none⟩
    [("a", ⟨"a", some "ui", [], []⟩)] [] "a"
  have h2 := claim_C4_get_cache_for_account
    ⟨fun _ => true, fun _ => some "info",
     fun _ => some [⟨"l", "l", "private"⟩]⟩ [] [] "alice"
  have h3 := claim_C4_get_cache_for_account
    ⟨fun _ => true, fun _ => none, fun _ => none⟩ [] [] "bob"
  exact ⟨h1.1 rfl, h2.2.1 rfl rfl "info" rfl, h3.2.2 rfl (Or.inr rfl)⟩

end Tsubame
